import Mathlib

/-!
Shallow embedding of `src/fake_news_bot.py`, a Telegram fact-checking bot
that forwards text, links, photos and videos to a generative-AI provider
and relays the verdict.  External effects (Telegram replies and edits,
file downloads and uploads, provider polling and inference calls, sleeps,
local file removal) are recorded as an explicit event trace; the outcomes
of the external calls are supplied by an environment record, so each
handler becomes a pure function from its environment to a trace plus
observable final state.
-/

namespace FakeNewsBot

/-- The two media kinds `handle_media` distinguishes (`media_type` in the
source). -/
inductive MediaType where
  | photo
  | video
deriving DecidableEq

/-- The string used for the media kind in user-visible messages
(`'photo'` / `'video'` in the source). -/
def MediaType.str : MediaType → String
  | MediaType.photo => "photo"
  | MediaType.video => "video"

/-- Processing state of a provider-side file handle, as exposed by the
inference provider's boundary: the source compares `gemini_file.state.name`
against the strings `'PROCESSING'` and `'FAILED'`, and any other state
(the provider's terminal success state) lets the workflow proceed; the
spec calls that state "ready". -/
inductive FileState where
  | processing
  | ready
  | failed
deriving DecidableEq

/-- One observable external action of a handler.  `replyText` is
`message.reply_text`, `editStatus` / `editMarkdown` are
`status_msg.edit_text` without / with `parse_mode='Markdown'`,
`getFile` is `get_file()`, `downloadToDrive` is
`file_obj.download_to_drive`, `uploadFile` is `genai.upload_file`,
`sleepSeconds n` is `asyncio.sleep(n)`, `pollFile` is `genai.get_file`,
`genContent p` is `model.generate_content` on prompt `p`,
`deleteRemote` is `genai.delete_file`, and `removeLocal` is
`os.remove(temp_path)`. -/
inductive Event where
  | replyText (s : String)
  | editStatus (s : String)
  | editMarkdown (s : String)
  | getFile (mt : MediaType)
  | downloadToDrive
  | uploadFile
  | sleepSeconds (n : Nat)
  | pollFile
  | genContent (prompt : String)
  | deleteRemote
  | removeLocal
deriving DecidableEq

/-- Environment for one `handle_media` invocation: the shape of the
incoming message and the outcomes of every external call the handler may
make.  `pollStates` is the sequence of states successive `genai.get_file`
polls would report; `uploadedState` is the state of the handle right
after `genai.upload_file` returns. -/
structure MediaEnv where
  hasPhoto : Bool
  hasVideo : Bool
  videoFileSize : Nat
  caption : Option String
  getFileOk : Bool
  downloadOk : Bool
  uploadOk : Bool
  uploadErr : String
  uploadedState : FileState
  pollStates : List FileState
  analysisOk : Bool
  analysisErr : String
  verdict : String
  markdownOk : Bool
deriving DecidableEq

/-- Observable outcome of one `handle_media` invocation.  `tempExists`
says whether the local temporary file is still on disk after the handler
returns (false when it was never created); `remoteUploaded` says whether
`genai.upload_file` succeeded (a provider-side handle exists);
`remoteDeleted` says whether `genai.delete_file` was called; `raised`
says whether an exception escaped the handler uncaught. -/
structure MediaResult where
  trace : List Event
  tempExists : Bool
  remoteUploaded : Bool
  remoteDeleted : Bool
  raised : Bool
deriving DecidableEq

/-- `SYSTEM_INSTRUCTION` from the source (the fixed fact-checking
instruction template). -/
def SYSTEM_INSTRUCTION : String :=
  "You are an expert fact-checker, journalist, and digital forensics analyst.\nAnalyze the provided content (which could be text, an article, an image, or a video) and determine if it is real, fake news, misleading, or satire.\n\nProvide a response strictly in this format:\n🚨 **Verdict:** [Real / Fake / Misleading / Satire / Unverified]\n\n📝 **Explanation:** [Provide a detailed explanation. Point out any manipulated elements, logical fallacies, lack of sources, or known hoaxes.]\n\n🔍 **Context & Facts:** [Provide the actual truth, background context, or correct information regarding the topic.]\n"

/-- The user-visible size-limit error for oversized videos. -/
def sizeLimitMsg : String :=
  "❌ This video is too large. Telegram bots can only process files up to 20MB."

/-- The status text while downloading media. -/
def downloadingMsg (mt : MediaType) : String :=
  "📥 Downloading " ++ mt.str ++ "..."

/-- The status text while uploading media to the provider. -/
def uploadingMsg : String :=
  "☁️ Uploading media to Gemini AI for analysis..."

/-- The status text while the provider processes a video. -/
def processingMsg : String :=
  "⚙️ Processing video frames and audio (this may take a few seconds)..."

/-- The status text before dispatching media analysis. -/
def analyzingMediaMsg : String :=
  "🧠 Analyzing media content for manipulation and context..."

/-- The catch-all error edit of `handle_media`:
`f"❌ An error occurred: \x7be\x7d"`. -/
def errOccurredMedia (e : String) : String :=
  "❌ An error occurred: " ++ e

/-- The catch-all error edit of `handle_text`:
`f"❌ An error occurred during analysis: \x7be\x7d"`. -/
def errOccurredText (e : String) : String :=
  "❌ An error occurred during analysis: " ++ e

/-- The exception message raised when the provider reports a failed
video. -/
def videoFailedMsg : String :=
  "Gemini failed to process the video."

/-- Embeds `caption = message.caption or "No caption provided by the
user."`: Python's `or` falls through to the default when the caption is
`None` or the empty (falsy) string. -/
def captionText : Option String → String
  | none => "No caption provided by the user."
  | some s => if s = "" then "No caption provided by the user." else s

/-- The prompt `handle_media` sends with the staged file. -/
def mediaPrompt (mt : MediaType) (caption : Option String) : String :=
  SYSTEM_INSTRUCTION ++ "\n\nHere is a " ++ mt.str ++
    " shared by the user. User's caption: '" ++ captionText caption ++
    "'. Please analyze the media and caption for authenticity."

/-- Embeds the `while gemini_file.state.name == 'PROCESSING'` poll loop:
starting from the current state, each iteration sleeps and re-fetches the
next state from `polls`.  Returns the first non-processing state together
with the number of iterations performed, or `none` when the supplied poll
sequence is exhausted while still processing (the source loop would still
be running, i.e. the workflow has not completed). -/
def pollLoop : FileState → List FileState → Option (FileState × Nat)
  | FileState.processing, [] => none
  | FileState.processing, s :: rest =>
      match pollLoop s rest with
      | some (f, n) => some (f, n + 1)
      | none => none
  | FileState.ready, _ => some (FileState.ready, 0)
  | FileState.failed, _ => some (FileState.failed, 0)

/-- The trace of `n` poll-loop iterations: each iteration is
`await asyncio.sleep(3)` followed by `genai.get_file`. -/
def pollEvents : Nat → List Event
  | 0 => []
  | n + 1 => Event.sleepSeconds 3 :: Event.pollFile :: pollEvents n

/-- Embeds the final-reply block shared by both handlers: try
`edit_text(text, parse_mode='Markdown')`, and when the formatting
renderer rejects it, fall back to `edit_text(text)` with the identical
string.  The resulting event is the delivery that succeeded. -/
def sendReplyEvent (markdownAccepted : Bool) (text : String) : Event :=
  if markdownAccepted then Event.editMarkdown text else Event.editStatus text

/-- Embeds lines 148-162 of `handle_media`: the "Analyzing" edit, the
`generate_content` dispatch, on success the verdict reply and the
`genai.delete_file` cleanup, on a provider error the catch-all error
edit.  Returns the events together with whether the remote handle was
deleted. -/
def analyzeAndReply (env : MediaEnv) (mt : MediaType) : List Event × Bool :=
  if env.analysisOk then
    ([Event.editStatus analyzingMediaMsg,
      Event.genContent (mediaPrompt mt env.caption),
      sendReplyEvent env.markdownOk env.verdict,
      Event.deleteRemote], true)
  else
    ([Event.editStatus analyzingMediaMsg,
      Event.genContent (mediaPrompt mt env.caption),
      Event.editStatus (errOccurredMedia env.analysisErr)], false)

/-- Partial outcome of the `try` block of `handle_media` (lines 134-165,
the `except` included): its events, whether an upload handle was
created, and whether it was deleted. -/
structure TryResult where
  trace : List Event
  remoteUploaded : Bool
  remoteDeleted : Bool
deriving DecidableEq

/-- Embeds the `try ... except` of `handle_media` (lines 134-165): the
"Uploading" edit and `genai.upload_file`; for videos the "Processing"
edit and the poll loop, raising when the provider reports failure; then
the analysis dispatch.  Every exception inside is caught by the
`except`, which edits the status with the catch-all error text.
Returns `none` only when the video poll loop never terminates. -/
def tryBlock (env : MediaEnv) (mt : MediaType) : Option TryResult :=
  if env.uploadOk then
    match mt with
    | MediaType.photo =>
        some { trace := Event.editStatus uploadingMsg :: Event.uploadFile ::
                 (analyzeAndReply env MediaType.photo).1,
               remoteUploaded := true,
               remoteDeleted := (analyzeAndReply env MediaType.photo).2 }
    | MediaType.video =>
        match pollLoop env.uploadedState env.pollStates with
        | none => none
        | some (FileState.failed, n) =>
            some { trace := Event.editStatus uploadingMsg :: Event.uploadFile ::
                     Event.editStatus processingMsg :: (pollEvents n ++
                     [Event.editStatus (errOccurredMedia videoFailedMsg)]),
                   remoteUploaded := true, remoteDeleted := false }
        | some (_, n) =>
            some { trace := Event.editStatus uploadingMsg :: Event.uploadFile ::
                     Event.editStatus processingMsg :: (pollEvents n ++
                     (analyzeAndReply env MediaType.video).1),
                   remoteUploaded := true,
                   remoteDeleted := (analyzeAndReply env MediaType.video).2 }
  else
    some { trace := [Event.editStatus uploadingMsg, Event.uploadFile,
                     Event.editStatus (errOccurredMedia env.uploadErr)],
           remoteUploaded := false, remoteDeleted := false }

/-- Embeds `handle_media` from the status reply onward for a message
whose media kind is `mt`: `get_file` (an exception there propagates
before any status message exists), the "Downloading" status reply, the
`NamedTemporaryFile(delete=False)` creation plus `download_to_drive`
(which sit inside the `with` block but BEFORE the `try`, so a download
failure propagates with the temporary file left on disk), then the
`try/except/finally` whose `finally` removes the local file. -/
def stageMedia (env : MediaEnv) (mt : MediaType) : Option MediaResult :=
  if env.getFileOk then
    if env.downloadOk then
      match tryBlock env mt with
      | none => none
      | some tb =>
          some { trace := [Event.getFile mt, Event.replyText (downloadingMsg mt),
                           Event.downloadToDrive] ++ tb.trace ++ [Event.removeLocal],
                 tempExists := false,
                 remoteUploaded := tb.remoteUploaded,
                 remoteDeleted := tb.remoteDeleted,
                 raised := false }
    else
      some { trace := [Event.getFile mt, Event.replyText (downloadingMsg mt),
                       Event.downloadToDrive],
             tempExists := true,
             remoteUploaded := false, remoteDeleted := false, raised := true }
  else
    some { trace := [Event.getFile mt], tempExists := false,
           remoteUploaded := false, remoteDeleted := false, raised := true }

/-- Embeds `handle_media` (lines 109-169): photo branch first, then the
video branch with its 20 MB pre-download size check, else an immediate
`return` with no action at all.  `none` only when the video poll loop
never terminates (the handler never returns). -/
def handle_media (env : MediaEnv) : Option MediaResult :=
  if env.hasPhoto then
    stageMedia env MediaType.photo
  else if env.hasVideo then
    if env.videoFileSize > 20 * 1024 * 1024 then
      some { trace := [Event.replyText sizeLimitMsg], tempExists := false,
             remoteUploaded := false, remoteDeleted := false, raised := false }
    else
      stageMedia env MediaType.video
  else
    some { trace := [], tempExists := false, remoteUploaded := false,
           remoteDeleted := false, raised := false }

/-- Whether `handle_media` reaches the temporary-file creation and the
`download_to_drive` call: there is media, an oversized video was not
rejected, and `get_file` succeeded. -/
def reachesDownloadStep (env : MediaEnv) : Bool :=
  if env.hasPhoto then env.getFileOk
  else if env.hasVideo then
    if env.videoFileSize > 20 * 1024 * 1024 then false else env.getFileOk
  else false

/-- Whether the poll loop terminates in a state other than `failed`
(for the given environment's upload state and poll sequence). -/
def pollNotFailed (env : MediaEnv) : Bool :=
  match pollLoop env.uploadedState env.pollStates with
  | some (FileState.failed, _) => false
  | _ => true

/-- Whether the whole staged-media workflow succeeds: the download step
is reached and succeeds, the upload succeeds, a video leaves the poll
loop in a non-failed state, and the analysis dispatch succeeds. -/
def successPath (env : MediaEnv) : Bool :=
  reachesDownloadStep env && env.downloadOk && env.uploadOk &&
    (if env.hasPhoto then true else pollNotFailed env) &&
    env.analysisOk

/-- Embeds `extract_text_from_url` (lines 48-58).  The effectful fetch
and HTML parse are the environment: `Except.ok paragraphs` is a response
whose parsed `<p>` elements have the given visible texts, `Except.error e`
is any raised exception (network error, timeout, malformed content) with
description `e`.  On success the paragraph texts are joined with single
spaces and sliced to the first 15000 code points (Python `text[:15000]`,
written over `String.data` since Lean 4.14 strings are char lists); on
any failure the placeholder string is returned and no exception
propagates (the function is total). -/
def extract_text_from_url (fetch : Except String (List String)) : String :=
  match fetch with
  | Except.ok paragraphs =>
      String.mk ((String.intercalate " " paragraphs).data.take 15000)
  | Except.error e => "[Failed to extract webpage content: " ++ e ++ "]"

/-- Environment for one `handle_text` invocation: the message text, the
URLs the regex finds in it, the fetch outcome for each URL, and the
outcomes of the dispatch and reply. -/
structure TextEnv where
  userText : String
  urls : List String
  fetches : List (Except String (List String))
  analysisOk : Bool
  analysisErr : String
  verdict : String
  markdownOk : Bool

/-- Embeds the `extracted_content` accumulation of `handle_text`: one
labeled block appended per URL, each containing the extractor's result
for that URL. -/
def extractedContent (urls : List String)
    (fetches : List (Except String (List String))) : String :=
  String.join ((urls.zip fetches).map (fun p =>
    "\n\n--- Content from " ++ p.1 ++ " ---\n" ++ extract_text_from_url p.2))

/-- The prompt `handle_text` sends. -/
def textPrompt (env : TextEnv) : String :=
  SYSTEM_INSTRUCTION ++ "\n\nUser Message/Claim: " ++ env.userText ++ "\n" ++
    extractedContent env.urls env.fetches

/-- Embeds `handle_text` (lines 77-107): status reply, URL-count edit
when links are present (each URL's extraction never raises), the
"Fact-checking" edit, the dispatch, then either the final reply with
Markdown fallback or — on a provider error — the catch-all error edit.
The handler always returns (its `try/except` catches the dispatch and
reply phases). -/
def handle_text (env : TextEnv) : List Event :=
  [Event.replyText "⏳ Analyzing text..."] ++
  (if env.urls.length = 0 then []
   else [Event.editStatus ("🔗 Found " ++ toString env.urls.length ++
          " link(s). Extracting webpage content...")]) ++
  [Event.editStatus "🧠 Fact-checking with Gemini AI...",
   Event.genContent (textPrompt env)] ++
  (if env.analysisOk then [sendReplyEvent env.markdownOk env.verdict]
   else [Event.editStatus (errOccurredText env.analysisErr)])

/-- Embeds `os.getenv(name, "")`: the environment lookup result with
default `""`. -/
def os_getenv (envVar : Option String) (dflt : String) : String :=
  envVar.getD dflt

/-- `TELEGRAM_TOKEN = os.getenv("TELEGRAM_TOKEN", "")` as a function of
the raw environment entry. -/
def telegramTokenOf (e : Option String) : String := os_getenv e ""

/-- `GEMINI_API_KEY = os.getenv("GEMINI_API_KEY", "")` as a function of
the raw environment entry. -/
def geminiApiKeyOf (e : Option String) : String := os_getenv e ""

/-- The startup guard of `main` (line 175): it fires — printing the
missing-configuration message and returning — exactly when a secret
still equals the placeholder literal. -/
def mainGuardFires (tok key : String) : Bool :=
  tok == "YOUR_TELEGRAM_BOT_TOKEN" || key == "YOUR_GEMINI_API_KEY"

/-- Whether `main` proceeds past the guard to build the application and
start the polling loop, as a function of the two raw environment
entries. -/
def mainStartsPolling (tEnv gEnv : Option String) : Bool :=
  !(mainGuardFires (telegramTokenOf tEnv) (geminiApiKeyOf gEnv))

/-- Event classifiers used by the trace-level properties. -/
def isSleep : Event → Bool
  | Event.sleepSeconds _ => true
  | _ => false

/-- Whether the event is a `genai.get_file` poll. -/
def isPoll : Event → Bool
  | Event.pollFile => true
  | _ => false

/-- Whether the event is a `generate_content` dispatch. -/
def isGen : Event → Bool
  | Event.genContent _ => true
  | _ => false

/-- Whether the event is a sleep of a duration other than the fixed
3-second poll interval. -/
def isBadSleep (ev : Event) : Bool :=
  isSleep ev && !(ev == Event.sleepSeconds 3)

/-- Whether the event edits the status message (with or without
Markdown formatting). -/
def isStatusEdit : Event → Bool
  | Event.editStatus _ => true
  | Event.editMarkdown _ => true
  | _ => false

/-- The text a Telegram send/edit event delivers to the user, if any. -/
def deliveredText : Event → Option String
  | Event.replyText s => some s
  | Event.editStatus s => some s
  | Event.editMarkdown s => some s
  | _ => none

theorem analyzeAndReply_snd (env : MediaEnv) (mt : MediaType) :
    (analyzeAndReply env mt).2 = env.analysisOk := by
  unfold analyzeAndReply
  cases h : env.analysisOk <;> simp [h]

theorem analyzeAndReply_of_ok {env : MediaEnv} (mt : MediaType)
    (h : env.analysisOk = true) :
    (analyzeAndReply env mt).1 =
      [Event.editStatus analyzingMediaMsg,
       Event.genContent (mediaPrompt mt env.caption),
       sendReplyEvent env.markdownOk env.verdict,
       Event.deleteRemote] := by
  simp [analyzeAndReply, h]

theorem analyzeAndReply_of_err {env : MediaEnv} (mt : MediaType)
    (h : env.analysisOk = false) :
    (analyzeAndReply env mt).1 =
      [Event.editStatus analyzingMediaMsg,
       Event.genContent (mediaPrompt mt env.caption),
       Event.editStatus (errOccurredMedia env.analysisErr)] := by
  simp [analyzeAndReply, h]

theorem sendReplyEvent_not_sleep (b : Bool) (t : String) :
    isSleep (sendReplyEvent b t) = false := by
  cases b <;> simp [sendReplyEvent, isSleep]

theorem sendReplyEvent_not_poll (b : Bool) (t : String) :
    isPoll (sendReplyEvent b t) = false := by
  cases b <;> simp [sendReplyEvent, isPoll]

theorem sendReplyEvent_not_gen (b : Bool) (t : String) :
    isGen (sendReplyEvent b t) = false := by
  cases b <;> simp [sendReplyEvent, isGen]

theorem analyzeAndReply_countP_gen (env : MediaEnv) (mt : MediaType) :
    (analyzeAndReply env mt).1.countP isGen = 1 := by
  cases h : env.analysisOk
  · simp [analyzeAndReply_of_err mt h, List.countP_cons, isGen]
  · cases hm : env.markdownOk <;>
      simp [analyzeAndReply_of_ok mt h, sendReplyEvent, hm, List.countP_cons, isGen]

theorem analyzeAndReply_countP_sleep (env : MediaEnv) (mt : MediaType) :
    (analyzeAndReply env mt).1.countP isSleep = 0 := by
  cases h : env.analysisOk
  · simp [analyzeAndReply_of_err mt h, List.countP_cons, isSleep]
  · cases hm : env.markdownOk <;>
      simp [analyzeAndReply_of_ok mt h, sendReplyEvent, hm, List.countP_cons, isSleep]

theorem analyzeAndReply_countP_poll (env : MediaEnv) (mt : MediaType) :
    (analyzeAndReply env mt).1.countP isPoll = 0 := by
  cases h : env.analysisOk
  · simp [analyzeAndReply_of_err mt h, List.countP_cons, isPoll]
  · cases hm : env.markdownOk <;>
      simp [analyzeAndReply_of_ok mt h, sendReplyEvent, hm, List.countP_cons, isPoll]

theorem pollEvents_countP_sleep (k : Nat) : (pollEvents k).countP isSleep = k := by
  induction k with
  | zero => rfl
  | succ n ih => simp [pollEvents, List.countP_cons, isSleep, ih]

theorem pollEvents_countP_poll (k : Nat) : (pollEvents k).countP isPoll = k := by
  induction k with
  | zero => rfl
  | succ n ih => simp [pollEvents, List.countP_cons, isPoll, ih]

theorem pollEvents_countP_gen (k : Nat) : (pollEvents k).countP isGen = 0 := by
  induction k with
  | zero => rfl
  | succ n ih => simp [pollEvents, List.countP_cons, isGen, ih]

theorem pollEvents_countP_badSleep (k : Nat) :
    (pollEvents k).countP isBadSleep = 0 := by
  induction k with
  | zero => rfl
  | succ n ih => simp [pollEvents, List.countP_cons, isBadSleep, isSleep, ih]

theorem pollEvents_not_gen (k : Nat) :
    ∀ ev ∈ pollEvents k, (!(isGen ev)) = true := by
  induction k with
  | zero => intro ev hev; cases hev
  | succ n ih =>
      intro ev hev
      rcases hev with _ | ⟨_, hev⟩
      · rfl
      · rcases hev with _ | ⟨_, hev⟩
        · rfl
        · exact ih ev hev

theorem analyzeAndReply_countP_badSleep (env : MediaEnv) (mt : MediaType) :
    (analyzeAndReply env mt).1.countP isBadSleep = 0 := by
  cases h : env.analysisOk
  · simp [analyzeAndReply_of_err mt h, List.countP_cons, isBadSleep, isSleep]
  · cases hm : env.markdownOk <;>
      simp [analyzeAndReply_of_ok mt h, sendReplyEvent, hm, List.countP_cons,
        isBadSleep, isSleep]

theorem pollLoop_ne_processing (st : FileState) (l : List FileState)
    (s : FileState) (k : Nat) (h : pollLoop st l = some (s, k)) :
    s ≠ FileState.processing := by
  induction l generalizing st s k with
  | nil =>
      cases st with
      | processing => cases h
      | ready =>
          injection h with h
          rw [Prod.mk.injEq] at h
          obtain ⟨h1, h2⟩ := h
          subst h1
          intro hc
          cases hc
      | failed =>
          injection h with h
          rw [Prod.mk.injEq] at h
          obtain ⟨h1, h2⟩ := h
          subst h1
          intro hc
          cases hc
  | cons a l ih =>
      cases st with
      | processing =>
          rw [pollLoop] at h
          cases hrec : pollLoop a l with
          | none => rw [hrec] at h; cases h
          | some p =>
              obtain ⟨f, n⟩ := p
              rw [hrec] at h
              injection h with h
              rw [Prod.mk.injEq] at h
              obtain ⟨h1, h2⟩ := h
              rw [h1] at hrec
              exact ih a s n hrec
      | ready =>
          injection h with h
          rw [Prod.mk.injEq] at h
          obtain ⟨h1, h2⟩ := h
          subst h1
          intro hc
          cases hc
      | failed =>
          injection h with h
          rw [Prod.mk.injEq] at h
          obtain ⟨h1, h2⟩ := h
          subst h1
          intro hc
          cases hc

theorem tryBlock_cases {env : MediaEnv} {mt : MediaType} {tb : TryResult}
    (h : tryBlock env mt = some tb) :
    (env.uploadOk = false ∧
      tb = { trace := [Event.editStatus uploadingMsg, Event.uploadFile,
                       Event.editStatus (errOccurredMedia env.uploadErr)],
             remoteUploaded := false, remoteDeleted := false }) ∨
    (env.uploadOk = true ∧ mt = MediaType.photo ∧
      tb = { trace := Event.editStatus uploadingMsg :: Event.uploadFile ::
               (analyzeAndReply env MediaType.photo).1,
             remoteUploaded := true,
             remoteDeleted := (analyzeAndReply env MediaType.photo).2 }) ∨
    (∃ n, env.uploadOk = true ∧ mt = MediaType.video ∧
      pollLoop env.uploadedState env.pollStates = some (FileState.failed, n) ∧
      tb = { trace := Event.editStatus uploadingMsg :: Event.uploadFile ::
               Event.editStatus processingMsg :: (pollEvents n ++
               [Event.editStatus (errOccurredMedia videoFailedMsg)]),
             remoteUploaded := true, remoteDeleted := false }) ∨
    (∃ s n, env.uploadOk = true ∧ mt = MediaType.video ∧
      pollLoop env.uploadedState env.pollStates = some (s, n) ∧
      s ≠ FileState.failed ∧
      tb = { trace := Event.editStatus uploadingMsg :: Event.uploadFile ::
               Event.editStatus processingMsg :: (pollEvents n ++
               (analyzeAndReply env MediaType.video).1),
             remoteUploaded := true,
             remoteDeleted := (analyzeAndReply env MediaType.video).2 }) := by
  unfold tryBlock at h
  by_cases hu : env.uploadOk = true
  · rw [if_pos hu] at h
    cases mt with
    | photo =>
        refine Or.inr (Or.inl ⟨hu, rfl, ?_⟩)
        injection h with h
        exact h.symm
    | video =>
        rcases hp : pollLoop env.uploadedState env.pollStates with _ | ⟨s, n⟩
        · rw [hp] at h
          cases h
        · rw [hp] at h
          cases s with
          | failed =>
              refine Or.inr (Or.inr (Or.inl ⟨n, hu, rfl, rfl, ?_⟩))
              injection h with h
              exact h.symm
          | processing =>
              refine Or.inr (Or.inr (Or.inr ⟨FileState.processing, n, hu, rfl, rfl,
                (by intro hc; cases hc), ?_⟩))
              injection h with h
              exact h.symm
          | ready =>
              refine Or.inr (Or.inr (Or.inr ⟨FileState.ready, n, hu, rfl, rfl,
                (by intro hc; cases hc), ?_⟩))
              injection h with h
              exact h.symm
  · rw [if_neg hu] at h
    refine Or.inl ⟨by simpa using hu, ?_⟩
    injection h with h
    exact h.symm

theorem stageMedia_cases {env : MediaEnv} {mt : MediaType} {r : MediaResult}
    (h : stageMedia env mt = some r) :
    (env.getFileOk = false ∧
      r = { trace := [Event.getFile mt], tempExists := false,
            remoteUploaded := false, remoteDeleted := false, raised := true }) ∨
    (env.getFileOk = true ∧ env.downloadOk = false ∧
      r = { trace := [Event.getFile mt, Event.replyText (downloadingMsg mt),
                      Event.downloadToDrive],
            tempExists := true, remoteUploaded := false, remoteDeleted := false,
            raised := true }) ∨
    (∃ tb, env.getFileOk = true ∧ env.downloadOk = true ∧
      tryBlock env mt = some tb ∧
      r = { trace := [Event.getFile mt, Event.replyText (downloadingMsg mt),
                      Event.downloadToDrive] ++ tb.trace ++ [Event.removeLocal],
            tempExists := false, remoteUploaded := tb.remoteUploaded,
            remoteDeleted := tb.remoteDeleted, raised := false }) := by
  unfold stageMedia at h
  by_cases hg : env.getFileOk = true
  · rw [if_pos hg] at h
    by_cases hd : env.downloadOk = true
    · rw [if_pos hd] at h
      rcases htb : tryBlock env mt with _ | tb
      · rw [htb] at h
        cases h
      · rw [htb] at h
        refine Or.inr (Or.inr ⟨tb, hg, hd, rfl, ?_⟩)
        injection h with h
        exact h.symm
    · rw [if_neg hd] at h
      refine Or.inr (Or.inl ⟨hg, by simpa using hd, ?_⟩)
      injection h with h
      exact h.symm
  · rw [if_neg hg] at h
    refine Or.inl ⟨by simpa using hg, ?_⟩
    injection h with h
    exact h.symm

theorem handle_media_cases {env : MediaEnv} {r : MediaResult}
    (h : handle_media env = some r) :
    (env.hasPhoto = true ∧ stageMedia env MediaType.photo = some r) ∨
    (env.hasPhoto = false ∧ env.hasVideo = true ∧
      env.videoFileSize > 20 * 1024 * 1024 ∧
      r = { trace := [Event.replyText sizeLimitMsg], tempExists := false,
            remoteUploaded := false, remoteDeleted := false, raised := false }) ∨
    (env.hasPhoto = false ∧ env.hasVideo = true ∧
      ¬env.videoFileSize > 20 * 1024 * 1024 ∧
      stageMedia env MediaType.video = some r) ∨
    (env.hasPhoto = false ∧ env.hasVideo = false ∧
      r = { trace := [], tempExists := false, remoteUploaded := false,
            remoteDeleted := false, raised := false }) := by
  unfold handle_media at h
  by_cases hp : env.hasPhoto = true
  · rw [if_pos hp] at h
    exact Or.inl ⟨hp, h⟩
  · rw [if_neg hp] at h
    by_cases hv : env.hasVideo = true
    · rw [if_pos hv] at h
      by_cases hs : env.videoFileSize > 20 * 1024 * 1024
      · rw [if_pos hs] at h
        refine Or.inr (Or.inl ⟨by simpa using hp, hv, hs, ?_⟩)
        injection h with h
        exact h.symm
      · rw [if_neg hs] at h
        exact Or.inr (Or.inr (Or.inl ⟨by simpa using hp, hv, hs, h⟩))
    · rw [if_neg hv] at h
      refine Or.inr (Or.inr (Or.inr ⟨by simpa using hp, by simpa using hv, ?_⟩))
      injection h with h
      exact h.symm

/-- A photo message whose `download_to_drive` call fails. -/
def cexC1Env : MediaEnv :=
  { hasPhoto := true, hasVideo := false, videoFileSize := 0, caption := none,
    getFileOk := true, downloadOk := false, uploadOk := true, uploadErr := "",
    uploadedState := FileState.ready, pollStates := [], analysisOk := true,
    analysisErr := "", verdict := "Real", markdownOk := true }

/-- A photo message whose whole workflow succeeds. -/
def wEnvC1 : MediaEnv :=
  { hasPhoto := true, hasVideo := false, videoFileSize := 0, caption := none,
    getFileOk := true, downloadOk := true, uploadOk := true, uploadErr := "",
    uploadedState := FileState.ready, pollStates := [], analysisOk := true,
    analysisErr := "", verdict := "Real", markdownOk := true }

/-- C1, counterexample: for a photo message whose `download_to_drive`
call itself fails, the temporary file created by
`NamedTemporaryFile(delete=False)` is still on disk when the workflow
for that message ends (the failure happens before the `try/finally`
that removes it), refuting the claim that the local temporary path no
longer exists on every exit path including a failure during the
download step. -/
theorem c1_counterexample :
    handle_media cexC1Env = some
      { trace := [Event.getFile MediaType.photo,
                  Event.replyText (downloadingMsg MediaType.photo),
                  Event.downloadToDrive],
        tempExists := true, remoteUploaded := false, remoteDeleted := false,
        raised := true } := by rfl

/-- C1 (amended): the local temporary file exists after the workflow
completes exactly when the download step was reached and the
`download_to_drive` call failed; on every other exit path — success,
early rejection, `get_file` failure, or any error inside the
`try` block — the temporary path no longer exists. -/
theorem c1_temp_file_cleanup (env : MediaEnv) (r : MediaResult)
    (h : handle_media env = some r) :
    r.tempExists = (reachesDownloadStep env && !env.downloadOk) := by
  rcases handle_media_cases h with
    ⟨hp, hs⟩ | ⟨hp, hv, hsz, hr⟩ | ⟨hp, hv, hsz, hs⟩ | ⟨hp, hv, hr⟩
  · rcases stageMedia_cases hs with
      ⟨hg, hr⟩ | ⟨hg, hd, hr⟩ | ⟨tb, hg, hd, htb, hr⟩
    · subst hr; simp [reachesDownloadStep, hp, hg]
    · subst hr; simp [reachesDownloadStep, hp, hg, hd]
    · subst hr; simp [reachesDownloadStep, hp, hg, hd]
  · subst hr; simp [reachesDownloadStep, hp, hv, hsz]
  · rcases stageMedia_cases hs with
      ⟨hg, hr⟩ | ⟨hg, hd, hr⟩ | ⟨tb, hg, hd, htb, hr⟩
    · subst hr; simp [reachesDownloadStep, hp, hv, hsz, hg]
    · subst hr; simp [reachesDownloadStep, hp, hv, hsz, hg, hd]
    · subst hr; simp [reachesDownloadStep, hp, hv, hsz, hg, hd]
  · subst hr; simp [reachesDownloadStep, hp, hv]

/-- C1, witness: the amended cleanup theorem applied to a concrete
successful photo workflow, whose temporary file is removed. -/
theorem c1_witness :
    ({ trace := [Event.getFile MediaType.photo,
                 Event.replyText (downloadingMsg MediaType.photo),
                 Event.downloadToDrive, Event.editStatus uploadingMsg,
                 Event.uploadFile, Event.editStatus analyzingMediaMsg,
                 Event.genContent (mediaPrompt MediaType.photo none),
                 Event.editMarkdown "Real", Event.deleteRemote,
                 Event.removeLocal],
       tempExists := false, remoteUploaded := true, remoteDeleted := true,
       raised := false } : MediaResult).tempExists =
      (reachesDownloadStep wEnvC1 && !wEnvC1.downloadOk) :=
  c1_temp_file_cleanup wEnvC1 _ (by rfl)

/-- C4: with both secrets absent from the environment, `os.getenv`
yields the default `""`, the startup guard — which compares against the
placeholder literals `"YOUR_TELEGRAM_BOT_TOKEN"` / `"YOUR_GEMINI_API_KEY"`
— does not fire, and `main` proceeds to build the application and start
the polling loop instead of reporting the missing configuration. -/
theorem c4_missing_secrets_guard :
    telegramTokenOf none = "" ∧ geminiApiKeyOf none = "" ∧
    mainGuardFires (telegramTokenOf none) (geminiApiKeyOf none) = false ∧
    mainStartsPolling none none = true :=
  ⟨rfl, rfl, rfl, rfl⟩

/-- C5: for every video message whose reported size exceeds
20 * 1024 * 1024 bytes, the handler replies with the size-limit error
and returns at once: its whole trace is that single reply, so no
`get_file`, download or upload call is performed and no temporary or
remote file is created. -/
theorem c5_oversized_video_rejected (env : MediaEnv) (h1 : env.hasPhoto = false)
    (h2 : env.hasVideo = true) (h3 : env.videoFileSize > 20 * 1024 * 1024) :
    handle_media env = some
      { trace := [Event.replyText sizeLimitMsg], tempExists := false,
        remoteUploaded := false, remoteDeleted := false, raised := false } := by
  unfold handle_media
  rw [if_neg (by simp [h1]), if_pos h2, if_pos h3]

/-- A 25 MB video message. -/
def wEnvC5 : MediaEnv :=
  { hasPhoto := false, hasVideo := true, videoFileSize := 25 * 1024 * 1024,
    caption := none, getFileOk := true, downloadOk := true, uploadOk := true,
    uploadErr := "", uploadedState := FileState.processing, pollStates := [],
    analysisOk := true, analysisErr := "", verdict := "Real", markdownOk := true }

/-- C5, witness: the rejection theorem applied to a concrete 25 MB
video. -/
theorem c5_witness :
    handle_media wEnvC5 = some
      { trace := [Event.replyText sizeLimitMsg], tempExists := false,
        remoteUploaded := false, remoteDeleted := false, raised := false } :=
  c5_oversized_video_rejected wEnvC5 rfl rfl (by decide)

/-- C7: for every failing fetch (any raised exception with description
`e`), the extractor returns — rather than raises — the placeholder
string, which contains the word "Failed" and embeds the error
description `e`. -/
theorem c7_extract_returns_placeholder (e : String) :
    extract_text_from_url (Except.error e) =
      "[Failed to extract webpage content: " ++ e ++ "]" ∧
    (∃ u v, (extract_text_from_url (Except.error e)).data =
      u ++ "Failed".data ++ v) ∧
    (∃ u v, (extract_text_from_url (Except.error e)).data =
      u ++ e.data ++ v) := by
  have h0 : extract_text_from_url (Except.error e) =
      "[Failed to extract webpage content: " ++ e ++ "]" := rfl
  refine ⟨h0, ⟨"[".data,
    " to extract webpage content: ".data ++ e.data ++ "]".data, ?_⟩,
    ⟨"[Failed to extract webpage content: ".data, "]".data, ?_⟩⟩
  · rw [h0]
    simp [List.append_assoc]
  · rw [h0]
    simp [List.append_assoc]

/-- C8: the extractor's successful result never exceeds 15000
characters; when the joined paragraph text is longer than 15000
characters the result has length exactly 15000, and otherwise the text
is returned unmodified. -/
theorem c8_truncation (paragraphs : List String) :
    (extract_text_from_url (Except.ok paragraphs)).length ≤ 15000 ∧
    ((String.intercalate " " paragraphs).length > 15000 →
      (extract_text_from_url (Except.ok paragraphs)).length = 15000) ∧
    ((String.intercalate " " paragraphs).length ≤ 15000 →
      extract_text_from_url (Except.ok paragraphs) =
        String.intercalate " " paragraphs) := by
  refine ⟨?_, ?_, ?_⟩
  · show ((String.intercalate " " paragraphs).data.take 15000).length ≤ 15000
    rw [List.length_take]
    exact Nat.min_le_left _ _
  · intro h
    show ((String.intercalate " " paragraphs).data.take 15000).length = 15000
    rw [List.length_take]
    exact Nat.min_eq_left (Nat.le_of_lt h)
  · intro h
    show String.mk ((String.intercalate " " paragraphs).data.take 15000) =
      String.intercalate " " paragraphs
    have h2 : (String.intercalate " " paragraphs).data.length ≤ 15000 := h
    rw [List.take_of_length_le h2]

/-- C8, witness: the truncation theorem applied to a concrete 15001
character paragraph (truncated to exactly 15000) and to a short one
(returned unmodified). -/
theorem c8_witness :
    (extract_text_from_url
      (Except.ok [String.mk (List.replicate 15001 'a')])).length = 15000 ∧
    extract_text_from_url (Except.ok ["hello"]) =
      String.intercalate " " ["hello"] :=
  ⟨(c8_truncation [String.mk (List.replicate 15001 'a')]).2.1 (by
      show (15000 : Nat) < (String.mk (List.replicate 15001 'a')).length
      show (15000 : Nat) < (List.replicate 15001 'a').length
      rw [List.length_replicate]
      decide),
   (c8_truncation ["hello"]).2.2 (by decide)⟩

/-- A message carrying neither a photo nor a video. -/
def wEnvC10 : MediaEnv :=
  { hasPhoto := false, hasVideo := false, videoFileSize := 0, caption := none,
    getFileOk := true, downloadOk := true, uploadOk := true, uploadErr := "",
    uploadedState := FileState.ready, pollStates := [], analysisOk := true,
    analysisErr := "", verdict := "Real", markdownOk := true }

/-- C10: a message dispatched to `handle_media` with neither a photo
nor a video makes the handler return immediately: the trace is empty
(no reply, no status message, no download, upload or inference call),
nothing is created and nothing raises. -/
theorem c10_no_media_noop (env : MediaEnv) (h1 : env.hasPhoto = false)
    (h2 : env.hasVideo = false) :
    handle_media env = some
      { trace := [], tempExists := false, remoteUploaded := false,
        remoteDeleted := false, raised := false } := by
  unfold handle_media
  rw [if_neg (by simp [h1]), if_neg (by simp [h2])]

/-- C10, witness: the no-op theorem applied to a concrete mediafree
message. -/
theorem c10_witness :
    handle_media wEnvC10 = some
      { trace := [], tempExists := false, remoteUploaded := false,
        remoteDeleted := false, raised := false } :=
  c10_no_media_noop wEnvC10 rfl rfl

/-- An otherwise-successful photo message whose analysis dispatch
(`generate_content`) raises. -/
def cexC2Env : MediaEnv :=
  { hasPhoto := true, hasVideo := false, videoFileSize := 0, caption := none,
    getFileOk := true, downloadOk := true, uploadOk := true, uploadErr := "",
    uploadedState := FileState.ready, pollStates := [], analysisOk := false,
    analysisErr := "provider error", verdict := "", markdownOk := true }

/-- A photo message whose `genai.upload_file` call raises. -/
def wEnvC2 : MediaEnv :=
  { hasPhoto := true, hasVideo := false, videoFileSize := 0, caption := none,
    getFileOk := true, downloadOk := true, uploadOk := false,
    uploadErr := "quota", uploadedState := FileState.ready, pollStates := [],
    analysisOk := true, analysisErr := "", verdict := "Real", markdownOk := true }

/-- C2, counterexample: when the analysis dispatch fails after a
successful upload, the `except` branch edits the status but
`genai.delete_file` is never called, so the remote handle is leaked —
refuting the claim that the handle is deleted when the analysis step
fails. -/
theorem c2_counterexample :
    handle_media cexC2Env = some
      { trace := [Event.getFile MediaType.photo,
                  Event.replyText (downloadingMsg MediaType.photo),
                  Event.downloadToDrive, Event.editStatus uploadingMsg,
                  Event.uploadFile, Event.editStatus analyzingMediaMsg,
                  Event.genContent (mediaPrompt MediaType.photo none),
                  Event.editStatus (errOccurredMedia "provider error"),
                  Event.removeLocal],
        tempExists := false, remoteUploaded := true, remoteDeleted := false,
        raised := false } := by rfl

/-- C2 (amended): the remote provider-side handle is deleted exactly
when the whole workflow succeeds; on the success path it is never
leaked, but on an analysis (or video-processing) failure the handle is
not deleted.  Deletion implies an upload happened. -/
theorem c2_remote_handle_delete (env : MediaEnv) (r : MediaResult)
    (h : handle_media env = some r) :
    r.remoteDeleted = successPath env ∧
    (r.remoteDeleted = true → r.remoteUploaded = true) := by
  rcases handle_media_cases h with
    ⟨hp, hs⟩ | ⟨hp, hv, hsz, hr⟩ | ⟨hp, hv, hsz, hs⟩ | ⟨hp, hv, hr⟩
  · rcases stageMedia_cases hs with
      ⟨hg, hr⟩ | ⟨hg, hd, hr⟩ | ⟨tb, hg, hd, htb, hr⟩
    · subst hr; simp [successPath, reachesDownloadStep, hp, hg]
    · subst hr; simp [successPath, reachesDownloadStep, hp, hg, hd]
    · rcases tryBlock_cases htb with
        ⟨hu, htbr⟩ | ⟨hu, _, htbr⟩ | ⟨n, hu, hmt, hpl, htbr⟩ |
        ⟨s, n, hu, hmt, hpl, hsne, htbr⟩
      · subst hr; subst htbr
        simp [successPath, reachesDownloadStep, hp, hg, hd, hu]
      · subst hr; subst htbr
        simp [successPath, reachesDownloadStep, analyzeAndReply_snd,
          hp, hg, hd, hu]
      · simp at hmt
      · simp at hmt
  · subst hr; simp [successPath, reachesDownloadStep, hp, hv, hsz]
  · rcases stageMedia_cases hs with
      ⟨hg, hr⟩ | ⟨hg, hd, hr⟩ | ⟨tb, hg, hd, htb, hr⟩
    · subst hr; simp [successPath, reachesDownloadStep, hp, hv, hsz, hg]
    · subst hr; simp [successPath, reachesDownloadStep, hp, hv, hsz, hg, hd]
    · rcases tryBlock_cases htb with
        ⟨hu, htbr⟩ | ⟨hu, hmt, htbr⟩ | ⟨n, hu, hmt, hpl, htbr⟩ |
        ⟨s, n, hu, hmt, hpl, hsne, htbr⟩
      · subst hr; subst htbr
        simp [successPath, reachesDownloadStep, hp, hv, hsz, hg, hd, hu]
      · simp at hmt
      · subst hr; subst htbr
        simp [successPath, reachesDownloadStep, pollNotFailed, hpl,
          hp, hv, hsz, hg, hd, hu]
      · subst hr; subst htbr
        cases s with
        | failed => exact absurd rfl hsne
        | processing =>
            simp [successPath, reachesDownloadStep, pollNotFailed, hpl,
              analyzeAndReply_snd, hp, hv, hsz, hg, hd, hu]
        | ready =>
            simp [successPath, reachesDownloadStep, pollNotFailed, hpl,
              analyzeAndReply_snd, hp, hv, hsz, hg, hd, hu]
  · subst hr; simp [successPath, reachesDownloadStep, hp, hv]

/-- C2, witness: the amended deletion theorem applied to a concrete
upload-failure workflow (nothing uploaded, nothing deleted, and the
success path is off). -/
theorem c2_witness :
    ({ trace := [Event.getFile MediaType.photo,
                 Event.replyText (downloadingMsg MediaType.photo),
                 Event.downloadToDrive, Event.editStatus uploadingMsg,
                 Event.uploadFile,
                 Event.editStatus (errOccurredMedia "quota"),
                 Event.removeLocal],
       tempExists := false, remoteUploaded := false, remoteDeleted := false,
       raised := false } : MediaResult).remoteDeleted = successPath wEnvC2 :=
  (c2_remote_handle_delete wEnvC2 _ (by rfl)).1

/-- A video message whose `download_to_drive` call fails: the exception
propagates out of the handler and the status message is never edited at
all (in particular not to an error description). -/
def cexC3Env : MediaEnv :=
  { hasPhoto := false, hasVideo := true, videoFileSize := 5 * 1024 * 1024,
    caption := none, getFileOk := true, downloadOk := false, uploadOk := true,
    uploadErr := "", uploadedState := FileState.processing,
    pollStates := [FileState.ready], analysisOk := true, analysisErr := "",
    verdict := "Real", markdownOk := true }

/-- A photo message whose upload fails inside the `try` block. -/
def wEnvC3 : MediaEnv :=
  { hasPhoto := true, hasVideo := false, videoFileSize := 0, caption := none,
    getFileOk := true, downloadOk := true, uploadOk := false,
    uploadErr := "http 500", uploadedState := FileState.ready, pollStates := [],
    analysisOk := true, analysisErr := "", verdict := "", markdownOk := true }

/-- A text message whose analysis dispatch raises. -/
def tEnvC3 : TextEnv :=
  { userText := "hi", urls := [], fetches := [], analysisOk := false,
    analysisErr := "boom", verdict := "", markdownOk := true }

/-- C3, counterexample: a failure of the download step raises out of
`handle_media` uncaught, and the trace contains no status edit at all —
the status message is not updated with an error description — refuting
the claim that every unhandled exception at any phase (download
included) is reported through the status message. -/
theorem c3_counterexample :
    handle_media cexC3Env = some
      { trace := [Event.getFile MediaType.video,
                  Event.replyText (downloadingMsg MediaType.video),
                  Event.downloadToDrive],
        tempExists := true, remoteUploaded := false, remoteDeleted := false,
        raised := true } ∧
    List.countP isStatusEdit
      [Event.getFile MediaType.video,
       Event.replyText (downloadingMsg MediaType.video),
       Event.downloadToDrive] = 0 :=
  ⟨by rfl, by decide⟩

/-- C3 (amended): an exception raised inside the staged-analysis `try`
block of `handle_media` (upload, video processing, dispatch) is caught:
the handler does not re-raise, the status message is edited to the
catch-all error description, and the dispatcher is called at most once
(no retry).  For `handle_text`, a dispatch failure is likewise caught
and reported through the status message with exactly one dispatch.
(Exceptions during `get_file` or the download step itself are instead
uncaught and reported nowhere, as the counterexample shows.) -/
theorem c3_error_reporting :
    (∀ (env : MediaEnv) (r : MediaResult), handle_media env = some r →
      reachesDownloadStep env = true → env.downloadOk = true →
      successPath env = false →
      r.raised = false ∧
      (∃ e, Event.editStatus (errOccurredMedia e) ∈ r.trace) ∧
      r.trace.countP isGen ≤ 1) ∧
    (∀ (tenv : TextEnv), tenv.analysisOk = false →
      Event.editStatus (errOccurredText tenv.analysisErr) ∈ handle_text tenv ∧
      (handle_text tenv).countP isGen = 1) := by
  constructor
  · intro env r h hre hd hsp
    rcases handle_media_cases h with
      ⟨hp, hs⟩ | ⟨hp, hv, hsz, hr⟩ | ⟨hp, hv, hsz, hs⟩ | ⟨hp, hv, hr⟩
    · rcases stageMedia_cases hs with
        ⟨hg, hr⟩ | ⟨hg, hd2, hr⟩ | ⟨tb, hg, hd2, htb, hr⟩
      · simp [reachesDownloadStep, hp, hg] at hre
      · rw [hd] at hd2; cases hd2
      · rcases tryBlock_cases htb with
          ⟨hu, htbr⟩ | ⟨hu, _, htbr⟩ | ⟨n, hu, hmt, hpl, htbr⟩ |
          ⟨s, n, hu, hmt, hpl, hsne, htbr⟩
        · subst hr; subst htbr
          refine ⟨rfl, ⟨env.uploadErr, by simp⟩, ?_⟩
          simp [List.countP_append, List.countP_cons, isGen]
        · simp [successPath, reachesDownloadStep, hp, hg, hd, hu] at hsp
          subst hr; subst htbr
          refine ⟨rfl, ⟨env.analysisErr, ?_⟩, ?_⟩
          · simp [analyzeAndReply_of_err MediaType.photo hsp]
          · simp [List.countP_append, List.countP_cons, isGen,
              analyzeAndReply_countP_gen]
        · simp at hmt
        · simp at hmt
    · simp [reachesDownloadStep, hp, hv, hsz] at hre
    · rcases stageMedia_cases hs with
        ⟨hg, hr⟩ | ⟨hg, hd2, hr⟩ | ⟨tb, hg, hd2, htb, hr⟩
      · simp [reachesDownloadStep, hp, hv, hsz, hg] at hre
      · rw [hd] at hd2; cases hd2
      · rcases tryBlock_cases htb with
          ⟨hu, htbr⟩ | ⟨hu, hmt, htbr⟩ | ⟨n, hu, hmt, hpl, htbr⟩ |
          ⟨s, n, hu, hmt, hpl, hsne, htbr⟩
        · subst hr; subst htbr
          refine ⟨rfl, ⟨env.uploadErr, by simp⟩, ?_⟩
          simp [List.countP_append, List.countP_cons, isGen]
        · simp at hmt
        · subst hr; subst htbr
          refine ⟨rfl, ⟨videoFailedMsg, by simp⟩, ?_⟩
          simp [List.countP_append, List.countP_cons, isGen,
            pollEvents_countP_gen]
        · subst hr; subst htbr
          have ha : env.analysisOk = false := by
            cases s with
            | failed => exact absurd rfl hsne
            | processing =>
                simpa [successPath, reachesDownloadStep, pollNotFailed, hpl,
                  hp, hv, hsz, hg, hd, hu] using hsp
            | ready =>
                simpa [successPath, reachesDownloadStep, pollNotFailed, hpl,
                  hp, hv, hsz, hg, hd, hu] using hsp
          refine ⟨rfl, ⟨env.analysisErr, ?_⟩, ?_⟩
          · simp [analyzeAndReply_of_err MediaType.video ha]
          · simp [List.countP_append, List.countP_cons, isGen,
              pollEvents_countP_gen, analyzeAndReply_countP_gen]
    · simp [reachesDownloadStep, hp, hv] at hre
  · intro tenv ha
    by_cases hu : tenv.urls.length = 0 <;>
      simp [handle_text, ha, hu, List.countP_append, List.countP_cons, isGen]

/-- C3, witness: the amended reporting theorem applied to a concrete
upload failure (no re-raise, one dispatch at most) and to a concrete
text-analysis failure (exactly one dispatch). -/
theorem c3_witness :
    (({ trace := [Event.getFile MediaType.photo,
                  Event.replyText (downloadingMsg MediaType.photo),
                  Event.downloadToDrive, Event.editStatus uploadingMsg,
                  Event.uploadFile,
                  Event.editStatus (errOccurredMedia "http 500"),
                  Event.removeLocal],
        tempExists := false, remoteUploaded := false, remoteDeleted := false,
        raised := false } : MediaResult).raised = false ∧
      (handle_text tEnvC3).countP isGen = 1) :=
  ⟨(c3_error_reporting.1 wEnvC3 _ (by rfl) (by rfl) rfl (by rfl)).1,
    (c3_error_reporting.2 tEnvC3 rfl).2⟩

/-- C6: media polling.  Photos are never polled: the trace of any photo
workflow holds no sleep and no poll event.  For a video that reaches
the upload, with the poll loop reporting final state `s` after `k`
"processing" reports: the handler sleeps exactly `k` times, never with
a duration other than 3 seconds, polls exactly `k` times, the final state is never
"processing", the dispatcher is not called when the state is "failed"
and is called exactly once when it is "ready", and the trace decomposes
as `t1 ++ pollEvents k ++ t2` with all sleeps and polls inside the poll
segment — so the dispatch (inside `t2`) happens only after polling has
finished. -/
theorem c6_video_polling :
    (∀ (env : MediaEnv) (r : MediaResult), handle_media env = some r →
      env.hasPhoto = true →
      r.trace.countP isSleep = 0 ∧ r.trace.countP isPoll = 0) ∧
    (∀ (env : MediaEnv) (r : MediaResult) (s : FileState) (k : Nat),
      handle_media env = some r →
      env.hasPhoto = false → env.hasVideo = true →
      ¬env.videoFileSize > 20 * 1024 * 1024 →
      env.getFileOk = true → env.downloadOk = true → env.uploadOk = true →
      pollLoop env.uploadedState env.pollStates = some (s, k) →
      r.trace.countP isSleep = k ∧ r.trace.countP isPoll = k ∧
      r.trace.countP isBadSleep = 0 ∧
      s ≠ FileState.processing ∧
      (s = FileState.failed → r.trace.countP isGen = 0) ∧
      (s = FileState.ready → r.trace.countP isGen = 1) ∧
      (∃ t1 t2, r.trace = t1 ++ pollEvents k ++ t2 ∧
        t1.countP isGen = 0 ∧ t1.countP isSleep = 0 ∧ t1.countP isPoll = 0 ∧
        t2.countP isSleep = 0 ∧ t2.countP isPoll = 0)) := by
  constructor
  · intro env r h hp
    rcases handle_media_cases h with
      ⟨hp2, hs⟩ | ⟨hp2, hv, hsz, hr⟩ | ⟨hp2, hv, hsz, hs⟩ | ⟨hp2, hv, hr⟩
    · rcases stageMedia_cases hs with
        ⟨hg, hr⟩ | ⟨hg, hd, hr⟩ | ⟨tb, hg, hd, htb, hr⟩
      · subst hr; simp [List.countP_cons, isSleep, isPoll]
      · subst hr; simp [List.countP_cons, isSleep, isPoll]
      · rcases tryBlock_cases htb with
          ⟨hu, htbr⟩ | ⟨hu, _, htbr⟩ | ⟨n, hu, hmt, hpl, htbr⟩ |
          ⟨s, n, hu, hmt, hpl, hsne, htbr⟩
        · subst hr; subst htbr
          simp [List.countP_append, List.countP_cons, isSleep, isPoll]
        · subst hr; subst htbr
          simp [List.countP_append, List.countP_cons, isSleep, isPoll,
            analyzeAndReply_countP_sleep, analyzeAndReply_countP_poll]
        · simp at hmt
        · simp at hmt
    · rw [hp] at hp2; cases hp2
    · rw [hp] at hp2; cases hp2
    · rw [hp] at hp2; cases hp2
  · intro env r s k h hp hv hsz hg2 hd2 hu2 hpl
    rcases handle_media_cases h with
      ⟨hp2, hs⟩ | ⟨hp2, hv2, hsz2, hr⟩ | ⟨hp2, hv2, hsz2, hs⟩ | ⟨hp2, hv2, hr⟩
    · rw [hp] at hp2; cases hp2
    · exact absurd hsz2 hsz
    · rcases stageMedia_cases hs with
        ⟨hg, hr⟩ | ⟨hg, hd, hr⟩ | ⟨tb, hg, hd, htb, hr⟩
      · rw [hg2] at hg; cases hg
      · rw [hd2] at hd; cases hd
      · rcases tryBlock_cases htb with
          ⟨hu, htbr⟩ | ⟨hu, hmt, htbr⟩ | ⟨n, hu, hmt, hpl2, htbr⟩ |
          ⟨s2, n, hu, hmt, hpl2, hsne, htbr⟩
        · rw [hu2] at hu; cases hu
        · simp at hmt
        · rw [hpl] at hpl2
          injection hpl2 with hpl2
          rw [Prod.mk.injEq] at hpl2
          obtain ⟨h1, h2⟩ := hpl2
          subst h1
          subst h2
          subst hr; subst htbr
          refine ⟨?_, ?_, ?_, ?_, ?_, ?_, ?_⟩
          · simp [List.countP_append, List.countP_cons, isSleep,
              pollEvents_countP_sleep]
          · simp [List.countP_append, List.countP_cons, isPoll,
              pollEvents_countP_poll]
          · simp [List.countP_append, List.countP_cons, isBadSleep, isSleep,
              pollEvents_countP_badSleep]
          · intro hc; cases hc
          · intro _
            simp [List.countP_append, List.countP_cons, isGen,
              pollEvents_countP_gen]
          · intro hsr; exact absurd hsr (by simp)
          · refine ⟨[Event.getFile MediaType.video,
              Event.replyText (downloadingMsg MediaType.video),
              Event.downloadToDrive, Event.editStatus uploadingMsg,
              Event.uploadFile, Event.editStatus processingMsg],
              [Event.editStatus (errOccurredMedia videoFailedMsg),
               Event.removeLocal], ?_, ?_, ?_, ?_, ?_, ?_⟩
            · simp [List.append_assoc]
            · simp [List.countP_cons, isGen]
            · simp [List.countP_cons, isSleep]
            · simp [List.countP_cons, isPoll]
            · simp [List.countP_cons, isSleep]
            · simp [List.countP_cons, isPoll]
        · rw [hpl] at hpl2
          injection hpl2 with hpl2
          rw [Prod.mk.injEq] at hpl2
          obtain ⟨h1, h2⟩ := hpl2
          subst h1
          subst h2
          subst hr; subst htbr
          refine ⟨?_, ?_, ?_, ?_, ?_, ?_, ?_⟩
          · simp [List.countP_append, List.countP_cons, isSleep,
              pollEvents_countP_sleep, analyzeAndReply_countP_sleep]
          · simp [List.countP_append, List.countP_cons, isPoll,
              pollEvents_countP_poll, analyzeAndReply_countP_poll]
          · simp [List.countP_append, List.countP_cons, isBadSleep, isSleep,
              pollEvents_countP_badSleep, analyzeAndReply_countP_badSleep]
          · exact pollLoop_ne_processing env.uploadedState env.pollStates s k hpl
          · intro hsf; exact absurd hsf hsne
          · intro _
            simp [List.countP_append, List.countP_cons, isGen,
              pollEvents_countP_gen, analyzeAndReply_countP_gen]
          · refine ⟨[Event.getFile MediaType.video,
              Event.replyText (downloadingMsg MediaType.video),
              Event.downloadToDrive, Event.editStatus uploadingMsg,
              Event.uploadFile, Event.editStatus processingMsg],
              (analyzeAndReply env MediaType.video).1 ++ [Event.removeLocal],
              ?_, ?_, ?_, ?_, ?_, ?_⟩
            · simp [List.append_assoc]
            · simp [List.countP_cons, isGen]
            · simp [List.countP_cons, isSleep]
            · simp [List.countP_cons, isPoll]
            · simp [List.countP_append, List.countP_cons, isSleep,
                analyzeAndReply_countP_sleep]
            · simp [List.countP_append, List.countP_cons, isPoll,
                analyzeAndReply_countP_poll]
    · rw [hv] at hv2; cases hv2

/-- A photo message whose `get_file` call fails (and so is never
polled). -/
def wEnvC6P : MediaEnv :=
  { hasPhoto := true, hasVideo := false, videoFileSize := 0, caption := none,
    getFileOk := false, downloadOk := true, uploadOk := true, uploadErr := "",
    uploadedState := FileState.ready, pollStates := [], analysisOk := true,
    analysisErr := "", verdict := "Real", markdownOk := true }

/-- A small video whose remote handle reports
processing → processing → ready across the polls. -/
def wEnvC6V : MediaEnv :=
  { hasPhoto := false, hasVideo := true, videoFileSize := 1024, caption := none,
    getFileOk := true, downloadOk := true, uploadOk := true, uploadErr := "",
    uploadedState := FileState.processing,
    pollStates := [FileState.processing, FileState.ready], analysisOk := true,
    analysisErr := "", verdict := "Real", markdownOk := true }

/-- C6, witness: the polling theorem applied to a concrete photo
workflow (zero polls) and to a concrete video workflow whose handle
reports processing twice and then ready (two 3-second sleeps and two
polls before the single dispatch). -/
theorem c6_witness :
    ({ trace := [Event.getFile MediaType.photo], tempExists := false,
       remoteUploaded := false, remoteDeleted := false,
       raised := true } : MediaResult).trace.countP isSleep = 0 ∧
    ({ trace := [Event.getFile MediaType.video,
                 Event.replyText (downloadingMsg MediaType.video),
                 Event.downloadToDrive, Event.editStatus uploadingMsg,
                 Event.uploadFile, Event.editStatus processingMsg,
                 Event.sleepSeconds 3, Event.pollFile,
                 Event.sleepSeconds 3, Event.pollFile,
                 Event.editStatus analyzingMediaMsg,
                 Event.genContent (mediaPrompt MediaType.video none),
                 Event.editMarkdown "Real", Event.deleteRemote,
                 Event.removeLocal],
       tempExists := false, remoteUploaded := true, remoteDeleted := true,
       raised := false } : MediaResult).trace.countP isSleep = 2 :=
  ⟨(c6_video_polling.1 wEnvC6P _ (by rfl) rfl).1,
   (c6_video_polling.2 wEnvC6V _ FileState.ready 2 (by rfl) rfl rfl (by decide)
     rfl rfl rfl (by rfl)).1⟩

/-- A photo message whose workflow succeeds but whose verdict is
rejected by the Markdown renderer. -/
def wEnvC9 : MediaEnv :=
  { hasPhoto := true, hasVideo := false, videoFileSize := 0, caption := none,
    getFileOk := true, downloadOk := true, uploadOk := true, uploadErr := "",
    uploadedState := FileState.ready, pollStates := [], analysisOk := true,
    analysisErr := "", verdict := "Real", markdownOk := false }

/-- A text message whose verdict is rejected by the Markdown
renderer. -/
def tEnvC9 : TextEnv :=
  { userText := "claim", urls := [], fetches := [], analysisOk := true,
    analysisErr := "", verdict := "Real", markdownOk := false }

/-- C9: when the Markdown send is rejected, the fallback delivers the
identical literal text as a plain edit — `sendReplyEvent` returns a
plain `editStatus` carrying exactly the input string, and in both
handlers a successful workflow whose Markdown send is rejected still
has the verbatim verdict delivered in its trace. -/
theorem c9_markdown_fallback :
    (∀ t : String,
      sendReplyEvent false t = Event.editStatus t ∧
      deliveredText (sendReplyEvent false t) = some t ∧
      deliveredText (sendReplyEvent true t) = some t) ∧
    (∀ (env : MediaEnv) (r : MediaResult), handle_media env = some r →
      successPath env = true → env.markdownOk = false →
      Event.editStatus env.verdict ∈ r.trace) ∧
    (∀ (tenv : TextEnv), tenv.analysisOk = true → tenv.markdownOk = false →
      Event.editStatus tenv.verdict ∈ handle_text tenv) := by
  refine ⟨fun t => ⟨rfl, rfl, rfl⟩, ?_, ?_⟩
  · intro env r h hsp hm
    rcases handle_media_cases h with
      ⟨hp, hs⟩ | ⟨hp, hv, hsz, hr⟩ | ⟨hp, hv, hsz, hs⟩ | ⟨hp, hv, hr⟩
    · rcases stageMedia_cases hs with
        ⟨hg, hr⟩ | ⟨hg, hd, hr⟩ | ⟨tb, hg, hd, htb, hr⟩
      · simp [successPath, reachesDownloadStep, hp, hg] at hsp
      · simp [successPath, reachesDownloadStep, hp, hg, hd] at hsp
      · rcases tryBlock_cases htb with
          ⟨hu, htbr⟩ | ⟨hu, _, htbr⟩ | ⟨n, hu, hmt, hpl, htbr⟩ |
          ⟨s, n, hu, hmt, hpl, hsne, htbr⟩
        · simp [successPath, reachesDownloadStep, hp, hg, hd, hu] at hsp
        · have ha : env.analysisOk = true := by
            simpa [successPath, reachesDownloadStep, hp, hg, hd, hu] using hsp
          subst hr; subst htbr
          simp [analyzeAndReply_of_ok MediaType.photo ha, sendReplyEvent, hm]
        · simp at hmt
        · simp at hmt
    · simp [successPath, reachesDownloadStep, hp, hv, hsz] at hsp
    · rcases stageMedia_cases hs with
        ⟨hg, hr⟩ | ⟨hg, hd, hr⟩ | ⟨tb, hg, hd, htb, hr⟩
      · simp [successPath, reachesDownloadStep, hp, hv, hsz, hg] at hsp
      · simp [successPath, reachesDownloadStep, hp, hv, hsz, hg, hd] at hsp
      · rcases tryBlock_cases htb with
          ⟨hu, htbr⟩ | ⟨hu, hmt, htbr⟩ | ⟨n, hu, hmt, hpl, htbr⟩ |
          ⟨s, n, hu, hmt, hpl, hsne, htbr⟩
        · simp [successPath, reachesDownloadStep, hp, hv, hsz, hg, hd, hu] at hsp
        · simp at hmt
        · simp [successPath, reachesDownloadStep, pollNotFailed, hpl,
            hp, hv, hsz, hg, hd, hu] at hsp
        · have ha : env.analysisOk = true := by
            cases s with
            | failed => exact absurd rfl hsne
            | processing =>
                simpa [successPath, reachesDownloadStep, pollNotFailed, hpl,
                  hp, hv, hsz, hg, hd, hu] using hsp
            | ready =>
                simpa [successPath, reachesDownloadStep, pollNotFailed, hpl,
                  hp, hv, hsz, hg, hd, hu] using hsp
          subst hr; subst htbr
          simp [analyzeAndReply_of_ok MediaType.video ha, sendReplyEvent, hm]
    · simp [successPath, reachesDownloadStep, hp, hv] at hsp
  · intro tenv ha hm
    by_cases hu : tenv.urls.length = 0 <;>
      simp [handle_text, ha, hm, sendReplyEvent, hu]

/-- C9, witness: the fallback theorem applied to a concrete successful
photo workflow and a concrete text workflow, both with the Markdown
renderer rejecting the verdict "Real". -/
theorem c9_witness :
    Event.editStatus "Real" ∈
      ({ trace := [Event.getFile MediaType.photo,
                   Event.replyText (downloadingMsg MediaType.photo),
                   Event.downloadToDrive, Event.editStatus uploadingMsg,
                   Event.uploadFile, Event.editStatus analyzingMediaMsg,
                   Event.genContent (mediaPrompt MediaType.photo none),
                   Event.editStatus "Real", Event.deleteRemote,
                   Event.removeLocal],
         tempExists := false, remoteUploaded := true, remoteDeleted := true,
         raised := false } : MediaResult).trace ∧
    Event.editStatus "Real" ∈ handle_text tEnvC9 :=
  ⟨c9_markdown_fallback.2.1 wEnvC9 _ (by rfl) (by rfl) rfl,
   c9_markdown_fallback.2.2 tEnvC9 rfl rfl⟩

end FakeNewsBot
